import Mathlib

/-!
Shallow embedding of the three FastAPI inference services under
`src/server/python` of the raimu repository: `translation_server.py`,
`whisper_server.py` and `tts_server.py`, followed by theorems about the
behaviour of their request handlers.
-/

namespace Raimu

/-- An HTTP exception as raised by `fastapi.HTTPException`: a status code
and a human-readable detail string. -/
structure HttpError where
  status : Nat
  detail : String
deriving Repr, DecidableEq

/-- Request body of `POST /translate` (`TranslationRequest` in
`translation_server.py`, lines 17-20). -/
structure TranslationRequest where
  text : String
  source_lang : String
  target_lang : String
deriving Repr, DecidableEq

/-- Characters treated as whitespace by Python `str.strip()` (the ASCII
whitespace set). -/
def isPySpace (c : Char) : Bool :=
  c == ' ' || c == '\t' || c == '\n' || c == '\r' || c == '\x0b' || c == '\x0c'

/-- The two quote characters removed from both ends of the translation by
the final cleanup step (line 198 of `translation_server.py`). -/
def isQuoteChar (c : Char) : Bool :=
  c == '"' || c == '\''

/-- Drop characters satisfying `p` from both ends of a character list, as
Python `str.strip` does with a character set argument. -/
def stripEnds (p : Char → Bool) (l : List Char) : List Char :=
  ((l.dropWhile p).reverse.dropWhile p).reverse

/-- Python `str.strip()` with no argument: whitespace removed from both
ends. -/
def pyStrip (s : String) : String :=
  String.mk (stripEnds isPySpace s.toList)

/-- Scan for the first closing parenthesis and return the remainder after
it; this is the `[^)]*\)` tail of the cleanup regex, which the greedy
character class always ends at the first closing parenthesis. -/
def splitAtClose : List Char → Option (List Char)
  | [] => none
  | c :: cs => if c == ')' then some cs else splitAtClose cs

/-- Try to match the cleanup regex (optional whitespace, an opening
parenthesis, non-closing characters, a closing parenthesis) at the head
of the list; on a match, return the remainder after the matched span. -/
def parenMatch (l : List Char) : Option (List Char) :=
  match l.dropWhile isPySpace with
  | [] => none
  | c :: r => if c == '(' then splitAtClose r else none

/-- The left-to-right scan of `re.sub` with the parenthetical pattern,
with explicit fuel; `fuel = l.length` always suffices because every step
consumes at least one character of the list. -/
def reSubAux : Nat → List Char → List Char
  | 0, l => l
  | _ + 1, [] => []
  | fuel + 1, c :: cs =>
    match parenMatch (c :: cs) with
    | some rest => reSubAux fuel rest
    | none => c :: reSubAux fuel cs

/-- The `re.sub` call of the translation cleanup (line 197 of
`translation_server.py`): delete every parenthetical span together with
the whitespace before it. -/
def reSubParens (l : List Char) : List Char :=
  reSubAux l.length l

/-- The post-processing applied to the decoded model output in
`translate` (lines 194-198): strip surrounding whitespace, delete
parenthetical spans, then strip enclosing quote characters. -/
def cleanup_translation (raw : String) : String :=
  String.mk (stripEnds isQuoteChar (reSubParens (pyStrip raw).toList))

/-- The 12 language codes of the dictionary in `get_language_name`. -/
def supportedLangCodes : List String :=
  ["en", "es", "fr", "de", "it", "pt", "nl", "pl", "ru", "zh", "ja", "ko"]

/-- `get_language_name` from `translation_server.py` (lines 110-125):
dictionary lookup with default value English. -/
def get_language_name (lang_code : String) : String :=
  if lang_code = "en" then "English"
  else if lang_code = "es" then "Spanish"
  else if lang_code = "fr" then "French"
  else if lang_code = "de" then "German"
  else if lang_code = "it" then "Italian"
  else if lang_code = "pt" then "Portuguese"
  else if lang_code = "nl" then "Dutch"
  else if lang_code = "pl" then "Polish"
  else if lang_code = "ru" then "Russian"
  else if lang_code = "zh" then "Chinese"
  else if lang_code = "ja" then "Japanese"
  else if lang_code = "ko" then "Korean"
  else "English"

/-- The keyword arguments of the `model.generate` call in `translate`
(lines 176-185 of `translation_server.py`). -/
structure GenerationConfig where
  max_new_tokens : Nat
  temperature : ℚ
  do_sample : Bool
  num_return_sequences : Nat
  repetition_penalty : ℚ
  no_repeat_ngram_size : Nat
  early_stopping : Bool
deriving Repr, DecidableEq

/-- The concrete generation configuration used by `/translate`; sampling
is disabled. -/
def translationGenConfig : GenerationConfig :=
  { max_new_tokens := 512,
    temperature := 3 / 10,
    do_sample := false,
    num_return_sequences := 1,
    repetition_penalty := 6 / 5,
    no_repeat_ngram_size := 3,
    early_stopping := true }

/-- The chat messages built in `translate` (lines 151-160): one system
instruction and the user text. -/
structure ChatMessages where
  system : String
  user : String
deriving Repr, DecidableEq

/-- The system message content (line 154 of `translation_server.py`). -/
def buildSystemPrompt (src tgt : String) : String :=
  "You are a translator. Translate text from " ++ src ++ " to " ++ tgt ++
    ". Provide only the translation, no explanations."

/-- The transform stage of `/translate`: resolve human-readable language
names and build the chat messages; purely a function of the request. -/
def buildMessages (req : TranslationRequest) : ChatMessages :=
  { system := buildSystemPrompt (get_language_name req.source_lang)
      (get_language_name req.target_lang),
    user := req.text }

/-- The `model.generate` call: `det` is the deterministic greedy decoding
of the loaded model (tokenization, generation and decoding folded into
one function of the messages), `samp` its sampling behaviour consuming a
noise source. With `do_sample := false` the noise source is never
consulted. -/
def model_generate (det : ChatMessages → String) (samp : ChatMessages → Nat → String)
    (cfg : GenerationConfig) (msgs : ChatMessages) (noise : Nat) : String :=
  if cfg.do_sample then samp msgs noise else det msgs

/-- The body of the `try` block of the `translate` handler (lines
129-221): validation, transform, generation and post-processing. A
`.error` value is a raised `HTTPException`; the boolean reports whether
`model.generate` was reached. -/
def translateBody (det : ChatMessages → String) (samp : ChatMessages → Nat → String)
    (noise : Nat) (req : TranslationRequest) : Except HttpError String × Bool :=
  if pyStrip req.text = "" then
    (Except.error { status := 400, detail := "Empty text provided for translation" }, false)
  else if req.text.length > 1000 then
    (Except.error { status := 400, detail := "Text exceeds maximum length of 1000 characters" },
      false)
  else
    (Except.ok (cleanup_translation
        (model_generate det samp translationGenConfig (buildMessages req) noise)), true)

/-- The `/translate` endpoint. The catch-all `except Exception` at line
223 intercepts every exception raised in the try block — the validation
`HTTPException` objects included, since `HTTPException` subclasses
`Exception` — and re-raises a 500 whose detail wraps the string form of
the original exception. Returns the HTTP status and the response text or
error detail. -/
def translate (det : ChatMessages → String) (samp : ChatMessages → Nat → String)
    (noise : Nat) (req : TranslationRequest) : Nat × String :=
  match (translateBody det samp noise req).1 with
  | Except.ok t => (200, t)
  | Except.error e =>
    (500, "Translation failed: " ++ toString e.status ++ ": " ++ e.detail)

/-- Whether a pipeline outcome is a validation failure (a raised
`HTTPException` with status 400). -/
def isValidationFailure : Except HttpError String → Bool
  | Except.error e => e.status == 400
  | Except.ok _ => false

/-- An exception raised by a loader or a model call, carrying only its
message. -/
structure PyError where
  msg : String
deriving Repr, DecidableEq

/-- The loaded Whisper ASR pipeline object, identified opaquely. -/
structure WhisperPipe where
  model_id : String
deriving Repr, DecidableEq

/-- `TranscriptionRequest` from `whisper_server.py` (lines 21-23). -/
structure TranscriptionRequest where
  audio_data : String
  language : String
deriving Repr, DecidableEq

/-- `initialize_model` from `whisper_server.py` (lines 28-99). The global
`local_pipe` is the state; when it is already set the function returns it
at once, otherwise it runs the loader `load`, stores and returns its
result, and re-raises any loader exception (lines 97-99). The boolean in
the result reports whether loading work was performed. -/
def initialize_model (load : Except PyError WhisperPipe) (local_pipe : Option WhisperPipe) :
    Except PyError (WhisperPipe × Option WhisperPipe × Bool) :=
  match local_pipe with
  | some p => Except.ok (p, some p, false)
  | none =>
    match load with
    | Except.ok p => Except.ok (p, some p, true)
    | Except.error e => Except.error e

/-- The `/transcribe` handler of `whisper_server.py` (lines 101-151).
`run` is the loaded pipeline applied to the decoded audio. The outer
`Except` layer is `.error` only for an exception escaping the handler;
the catch-all `except` at line 146 turns every exception raised inside
— a lazy initialization failure included — into a 500 response, so the
handler always returns `.ok`. The second component is the global
`local_pipe` after the call. -/
def transcribe (load : Except PyError WhisperPipe)
    (run : WhisperPipe → String → Except PyError String)
    (local_pipe : Option WhisperPipe) (req : TranscriptionRequest) :
    Except PyError ((Nat × String) × Option WhisperPipe) :=
  match local_pipe with
  | none =>
    match initialize_model load none with
    | Except.error e =>
      Except.ok ((500, "Transcription failed: " ++ e.msg), none)
    | Except.ok (p, st, _) =>
      match run p req.audio_data with
      | Except.ok text => Except.ok ((200, text), st)
      | Except.error e => Except.ok ((500, "Transcription failed: " ++ e.msg), st)
  | some p =>
    match run p req.audio_data with
    | Except.ok text => Except.ok ((200, text), some p)
    | Except.error e => Except.ok ((500, "Transcription failed: " ++ e.msg), some p)

/-- The module-level initialization of `translation_server.py` (lines
23-108): load the model, then the tokenizer and warmup; its `except`
clause (lines 106-108) only logs and re-raises, so a loader exception
escapes the module, the import fails and the process never starts
serving. -/
def translation_module_init (loadModel : Except PyError String)
    (loadTokenizer : Except PyError String) : Except PyError (String × String) :=
  match loadModel with
  | Except.error e => Except.error e
  | Except.ok m =>
    match loadTokenizer with
    | Except.error e => Except.error e
    | Except.ok t => Except.ok (m, t)

/-- The module-level initialization of `tts_server.py` (lines 33-79):
the same pattern, log and re-raise (lines 77-79). -/
def tts_module_init (loadModel : Except PyError String) : Except PyError String :=
  match loadModel with
  | Except.error e => Except.error e
  | Except.ok m => Except.ok m

/-- Failure injection and model behaviour for one `/tts` request:
whether reading the uploaded speaker audio, computing the conditioning
latents and running inference succeed, and the raw waveform the model
returns on success. -/
structure TTSEnv where
  readOk : Bool
  latentsOk : Bool
  inferenceOk : Bool
  modelWav : List ℚ
deriving Repr, DecidableEq

/-- Observable outcome of one `/tts` request: the HTTP status, response
detail, whether the handler body ran, whether the model backend was
reached, whether the upload was written to the temporary file, whether
that file still exists when the response is returned, the float buffer
handed to the WAV encoder (on success), and the dot-stripped text. -/
structure TTSOutcome where
  status : Nat
  detail : String
  handlerInvoked : Bool
  backendInvoked : Bool
  wroteTempFile : Bool
  tempFileRemains : Bool
  writtenWav : Option (List ℚ)
  cleanedText : String
deriving Repr, DecidableEq

/-- Absolute value on the rationals, written executably. -/
def ratAbs (x : ℚ) : ℚ :=
  if x < 0 then -x else x

/-- Maximum on the rationals, written executably. -/
def ratMax (a b : ℚ) : ℚ :=
  if a ≤ b then b else a

/-- The peak amplitude `np.abs(audio).max()` (0 for an empty buffer; in
the code the call raises on an empty buffer, which the handler embedding
treats as a separate branch). -/
def maxAbsAmp (l : List ℚ) : ℚ :=
  l.foldr (fun x m => ratMax (ratAbs x) m) 0

/-- Amplitude normalization of `tts_server.py` (lines 141-142): divide
by the peak only when it exceeds 1.0. -/
def normalize_audio (l : List ℚ) : List ℚ :=
  if maxAbsAmp l > 1 then l.map (fun x => x / maxAbsAmp l) else l

/-- Python `text.rstrip` with a dot argument (line 94 of
`tts_server.py`). -/
def rstripDots (s : String) : String :=
  String.mk ((s.toList.reverse.dropWhile (fun c => c == '.')).reverse)

/-- The `text_to_speech` handler body of `tts_server.py` (lines 87-199),
reached only when the framework accepted the multipart form. The
temporary file is created with the delete flag off; `speaker_wav` is
assigned only after the upload has been read and written (lines
104-107), and the `finally` block (lines 188-192) unlinks the file only
when `speaker_wav` is set, so a failure of the upload read leaks the
file while every later failure cleans it up. The catch-all `except` at
line 194 maps every exception to a 500 response. -/
def text_to_speech (env : TTSEnv) (text language : String) : TTSOutcome :=
  let cleaned := rstripDots text
  if !env.readOk then
    { status := 500, detail := "TTS generation failed: upload read error",
      handlerInvoked := true, backendInvoked := false,
      wroteTempFile := false, tempFileRemains := true,
      writtenWav := none, cleanedText := cleaned }
  else if !env.latentsOk then
    { status := 500, detail := "TTS generation failed: conditioning latents error",
      handlerInvoked := true, backendInvoked := true,
      wroteTempFile := true, tempFileRemains := false,
      writtenWav := none, cleanedText := cleaned }
  else if !env.inferenceOk then
    { status := 500, detail := "TTS generation failed: inference error",
      handlerInvoked := true, backendInvoked := true,
      wroteTempFile := true, tempFileRemains := false,
      writtenWav := none, cleanedText := cleaned }
  else if env.modelWav.isEmpty then
    { status := 500, detail := "TTS generation failed: zero-size array to reduction operation",
      handlerInvoked := true, backendInvoked := true,
      wroteTempFile := true, tempFileRemains := false,
      writtenWav := none, cleanedText := cleaned }
  else
    { status := 200, detail := "",
      handlerInvoked := true, backendInvoked := true,
      wroteTempFile := true, tempFileRemains := false,
      writtenWav := some (normalize_audio env.modelWav), cleanedText := cleaned }

/-- The `/tts` route of `tts_server.py`. `speaker_audio` is declared as
a required `File(...)` parameter (line 85). Modelled from the FastAPI
framework contract that declaration invokes: a request missing a
required form field is rejected with a 422 validation response before
the handler body runs. -/
def tts_endpoint (env : TTSEnv) (text language : String)
    (speaker_audio : Option (List Nat)) : TTSOutcome :=
  match speaker_audio with
  | none =>
    { status := 422, detail := "speaker_audio: field required",
      handlerInvoked := false, backendInvoked := false,
      wroteTempFile := false, tempFileRemains := false,
      writtenWav := none, cleanedText := "" }
  | some _ => text_to_speech env text language

/-- Is there a closing parenthesis anywhere in the list. -/
def hasCloseParen : List Char → Bool
  | [] => false
  | c :: cs => c == ')' || hasCloseParen cs

/-- No span matching the cleanup regex remains: no opening parenthesis
is followed anywhere later by a closing parenthesis. -/
def noParenMatch : List Char → Bool
  | [] => true
  | c :: cs => (c != '(' || !hasCloseParen cs) && noParenMatch cs

/-- The first character, when present, is not a quote character. -/
def headNotQuote (l : List Char) : Bool :=
  match l with
  | [] => true
  | c :: _ => !isQuoteChar c

/-- The last character, when present, is not a quote character. -/
def lastNotQuote (l : List Char) : Bool :=
  headNotQuote l.reverse

/-- Does the pattern occur at the head of the list. -/
def segStarts : List Char → List Char → Bool
  | [], _ => true
  | _ :: _, [] => false
  | p :: ps, c :: cs => p == c && segStarts ps cs

/-- Does the pattern occur anywhere in the list. -/
def segOccurs (pat : List Char) : List Char → Bool
  | [] => segStarts pat []
  | c :: cs => segStarts pat (c :: cs) || segOccurs pat cs

/-! Helper lemmas about the regex cleanup scan. -/

theorem splitAtClose_mem {l r : List Char} (h : splitAtClose l = some r) :
    ∀ x ∈ r, x ∈ l := by
  induction l with
  | nil => simp [splitAtClose] at h
  | cons c cs ih =>
    by_cases hc : c == ')'
    · rw [splitAtClose, if_pos hc] at h
      obtain rfl : cs = r := by injection h
      exact fun x hx => List.mem_cons_of_mem _ hx
    · rw [splitAtClose, if_neg hc] at h
      exact fun x hx => List.mem_cons_of_mem _ (ih h x hx)

theorem splitAtClose_length {l r : List Char} (h : splitAtClose l = some r) :
    r.length < l.length := by
  induction l with
  | nil => simp [splitAtClose] at h
  | cons c cs ih =>
    by_cases hc : c == ')'
    · rw [splitAtClose, if_pos hc] at h
      obtain rfl : cs = r := by injection h
      simp
    · rw [splitAtClose, if_neg hc] at h
      exact Nat.lt_trans (ih h) (by simp)

theorem splitAtClose_none {l : List Char} (h : splitAtClose l = none) :
    hasCloseParen l = false := by
  induction l with
  | nil => rfl
  | cons c cs ih =>
    by_cases hc : c == ')'
    · rw [splitAtClose, if_pos hc] at h
      exact absurd h (by simp)
    · rw [splitAtClose, if_neg hc] at h
      unfold hasCloseParen
      rw [ih h, Bool.or_false]
      cases hb : (c == ')') with
      | false => rfl
      | true => exact absurd hb hc

theorem parenMatch_length {l r : List Char} (h : parenMatch l = some r) :
    r.length < l.length := by
  unfold parenMatch at h
  cases hd : l.dropWhile isPySpace with
  | nil => rw [hd] at h; exact absurd h (by simp)
  | cons c rest =>
    rw [hd] at h
    dsimp only at h
    by_cases hc : c == '('
    · rw [if_pos hc] at h
      have h1 : r.length < rest.length := splitAtClose_length h
      have h2 : (c :: rest).length ≤ l.length := by
        rw [← hd]
        exact (List.dropWhile_sublist isPySpace).length_le
      simp only [List.length_cons] at h2
      omega
    · rw [if_neg hc] at h
      exact absurd h (by simp)

theorem parenMatch_mem {l r : List Char} (h : parenMatch l = some r) :
    ∀ x ∈ r, x ∈ l := by
  unfold parenMatch at h
  cases hd : l.dropWhile isPySpace with
  | nil => rw [hd] at h; exact absurd h (by simp)
  | cons c rest =>
    rw [hd] at h
    dsimp only at h
    by_cases hc : c == '('
    · rw [if_pos hc] at h
      intro x hx
      have hxr : x ∈ c :: rest := List.mem_cons_of_mem _ (splitAtClose_mem h x hx)
      rw [← hd] at hxr
      exact (List.dropWhile_sublist isPySpace).mem hxr
    · rw [if_neg hc] at h
      exact absurd h (by simp)

theorem reSubAux_mem : ∀ (fuel : Nat) (l : List Char), ∀ x ∈ reSubAux fuel l, x ∈ l := by
  intro fuel
  induction fuel with
  | zero => intro l x hx; simpa [reSubAux] using hx
  | succ f ih =>
    intro l x hx
    cases l with
    | nil => simp [reSubAux] at hx
    | cons c cs =>
      rw [reSubAux] at hx
      cases hm : parenMatch (c :: cs) with
      | some rest =>
        rw [hm] at hx
        exact parenMatch_mem hm x (ih rest x hx)
      | none =>
        rw [hm] at hx
        rcases List.mem_cons.mp hx with h | h
        · exact h ▸ List.mem_cons_self _ _
        · exact List.mem_cons_of_mem _ (ih cs x h)

theorem hasCloseParen_iff {l : List Char} : hasCloseParen l = true ↔ ')' ∈ l := by
  induction l with
  | nil => simp [hasCloseParen]
  | cons c cs ih =>
    unfold hasCloseParen
    rw [Bool.or_eq_true, ih, List.mem_cons, beq_iff_eq]
    constructor
    · rintro (h | h)
      · exact Or.inl h.symm
      · exact Or.inr h
    · rintro (h | h)
      · exact Or.inl h.symm
      · exact Or.inr h

theorem hasCloseParen_false_of_sub {l₁ l₂ : List Char}
    (hsub : ∀ x ∈ l₁, x ∈ l₂) (h : hasCloseParen l₂ = false) :
    hasCloseParen l₁ = false := by
  by_contra hne
  have h1 : hasCloseParen l₁ = true := by
    cases hh : hasCloseParen l₁ with
    | true => rfl
    | false => exact absurd hh hne
  have : ')' ∈ l₂ := hsub _ (hasCloseParen_iff.mp h1)
  rw [← hasCloseParen_iff] at this
  rw [this] at h
  exact Bool.noConfusion h

theorem reSubAux_noParenMatch :
    ∀ (fuel : Nat) (l : List Char), l.length ≤ fuel →
      noParenMatch (reSubAux fuel l) = true := by
  intro fuel
  induction fuel with
  | zero =>
    intro l hl
    obtain rfl : l = [] := List.length_eq_zero.mp (Nat.le_zero.mp hl)
    rfl
  | succ f ih =>
    intro l hl
    cases l with
    | nil => rfl
    | cons c cs =>
      rw [reSubAux]
      cases hm : parenMatch (c :: cs) with
      | some rest =>
        have hr : rest.length ≤ f := by
          have := parenMatch_length hm
          simp only [List.length_cons] at this hl
          omega
        exact ih rest hr
      | none =>
        have hcs : cs.length ≤ f := by
          simp only [List.length_cons] at hl
          omega
        have htail := ih cs hcs
        unfold noParenMatch
        rw [htail]
        by_cases hc : c = '('
        · subst hc
          have hdrop : List.dropWhile isPySpace ('(' :: cs) = '(' :: cs := rfl
          have hs : splitAtClose cs = none := by
            unfold parenMatch at hm
            rw [hdrop] at hm
            dsimp only at hm
            rw [if_pos (by decide)] at hm
            exact hm
          have hnc : hasCloseParen (reSubAux f cs) = false :=
            hasCloseParen_false_of_sub (reSubAux_mem f cs) (splitAtClose_none hs)
          simp [hnc]
        · simp [hc]

theorem noParenMatch_tail_append {l₁ l₂ : List Char}
    (h : noParenMatch (l₁ ++ l₂) = true) : noParenMatch l₂ = true := by
  induction l₁ with
  | nil => exact h
  | cons c cs ih =>
    rw [List.cons_append, noParenMatch, Bool.and_eq_true] at h
    exact ih h.2

theorem hasCloseParen_append {l₁ l₂ : List Char} :
    hasCloseParen (l₁ ++ l₂) = (hasCloseParen l₁ || hasCloseParen l₂) := by
  induction l₁ with
  | nil => simp [hasCloseParen]
  | cons c cs ih =>
    rw [List.cons_append, hasCloseParen, ih, hasCloseParen, Bool.or_assoc]

theorem noParenMatch_append_left {l₁ l₂ : List Char}
    (h : noParenMatch (l₁ ++ l₂) = true) : noParenMatch l₁ = true := by
  induction l₁ with
  | nil => rfl
  | cons c cs ih =>
    rw [List.cons_append, noParenMatch, Bool.and_eq_true] at h
    rw [noParenMatch, Bool.and_eq_true]
    refine ⟨?_, ih h.2⟩
    rcases Bool.or_eq_true_iff.mp h.1 with h1 | h1
    · exact Bool.or_eq_true_iff.mpr (Or.inl h1)
    · refine Bool.or_eq_true_iff.mpr (Or.inr ?_)
      rw [Bool.not_eq_true'] at h1 ⊢
      rw [hasCloseParen_append] at h1
      exact (Bool.or_eq_false_iff.mp h1).1

theorem noParenMatch_dropWhile {p : Char → Bool} {l : List Char}
    (h : noParenMatch l = true) : noParenMatch (l.dropWhile p) = true := by
  refine @noParenMatch_tail_append (l.takeWhile p) (l.dropWhile p) ?_
  rw [List.takeWhile_append_dropWhile]
  exact h

theorem stripEnds_decomp (p : Char → Bool) (l : List Char) :
    l.dropWhile p = stripEnds p l ++ ((l.dropWhile p).reverse.takeWhile p).reverse := by
  unfold stripEnds
  conv_lhs => rw [← List.reverse_reverse (l.dropWhile p)]
  conv_lhs =>
    rw [← List.takeWhile_append_dropWhile p (l.dropWhile p).reverse, List.reverse_append]

theorem noParenMatch_stripEnds {p : Char → Bool} {l : List Char}
    (h : noParenMatch l = true) : noParenMatch (stripEnds p l) = true := by
  have ha : noParenMatch (l.dropWhile p) = true := noParenMatch_dropWhile h
  rw [stripEnds_decomp p l] at ha
  exact noParenMatch_append_left ha

theorem headNotQuote_dropWhile (l : List Char) :
    headNotQuote (l.dropWhile isQuoteChar) = true := by
  induction l with
  | nil => rfl
  | cons c cs ih =>
    rw [List.dropWhile_cons]
    by_cases hc : isQuoteChar c = true
    · rw [if_pos hc]; exact ih
    · rw [if_neg hc]
      unfold headNotQuote
      simpa using hc

theorem headNotQuote_stripEnds (l : List Char) :
    headNotQuote (stripEnds isQuoteChar l) = true := by
  have ha := headNotQuote_dropWhile l
  rw [stripEnds_decomp isQuoteChar l] at ha
  cases hb : stripEnds isQuoteChar l with
  | nil => rfl
  | cons c bs =>
    rw [hb, List.cons_append] at ha
    exact ha

theorem lastNotQuote_stripEnds (l : List Char) :
    lastNotQuote (stripEnds isQuoteChar l) = true := by
  unfold lastNotQuote stripEnds
  rw [List.reverse_reverse]
  exact headNotQuote_dropWhile _

/-! Helper lemmas about amplitude normalization. -/

theorem ratAbs_eq_abs (x : ℚ) : ratAbs x = |x| := by
  unfold ratAbs
  by_cases h : x < 0
  · rw [if_pos h, abs_of_neg h]
  · rw [if_neg h, abs_of_nonneg (not_lt.mp h)]

theorem ratMax_eq_max (a b : ℚ) : ratMax a b = max a b := by
  unfold ratMax
  exact (max_def a b).symm

theorem abs_le_maxAbsAmp {l : List ℚ} {x : ℚ} (hx : x ∈ l) : |x| ≤ maxAbsAmp l := by
  induction l with
  | nil => cases hx
  | cons a t ih =>
    have hstep : maxAbsAmp (a :: t) = max |a| (maxAbsAmp t) := by
      unfold maxAbsAmp
      rw [List.foldr_cons, ratMax_eq_max, ratAbs_eq_abs]
    rcases List.mem_cons.mp hx with h | h
    · rw [hstep, h]
      exact le_max_left _ _
    · rw [hstep]
      exact le_trans (ih h) (le_max_right _ _)

theorem abs_le_one_of_mem_normalize {l : List ℚ} {x : ℚ}
    (hx : x ∈ normalize_audio l) : |x| ≤ 1 := by
  unfold normalize_audio at hx
  by_cases hm : maxAbsAmp l > 1
  · rw [if_pos hm] at hx
    obtain ⟨y, hy, rfl⟩ := List.mem_map.mp hx
    have hM : (0 : ℚ) < maxAbsAmp l := lt_trans one_pos hm
    rw [abs_div, abs_of_pos hM, div_le_one hM]
    exact abs_le_maxAbsAmp hy
  · rw [if_neg hm] at hx
    exact le_trans (abs_le_maxAbsAmp hx) (not_lt.mp hm)

/-! Theorems settling the claims. -/

/-- C1: the claim says a `/translate` request with empty, whitespace-only
or over-long text is answered with HTTP 400. The code violates this: the
validation `HTTPException(400)` raised at lines 131-141 is itself an
`Exception`, so the catch-all at line 223 intercepts it and re-raises
`HTTPException(500)`; every such request is answered with HTTP 500. -/
theorem C1_validation_answered_with_500 (det : ChatMessages → String)
    (samp : ChatMessages → Nat → String) (noise : Nat) (req : TranslationRequest)
    (h : pyStrip req.text = "" ∨ req.text.length > 1000) :
    (translate det samp noise req).1 = 500 := by
  unfold translate translateBody
  by_cases h1 : pyStrip req.text = ""
  · rw [if_pos h1]
  · rcases h with h | h
    · exact absurd h h1
    · rw [if_neg h1, if_pos h]

/-- Witness for C1 at the concrete failing inputs: the empty text and a
whitespace-only text are both answered with status 500, not 400. -/
theorem C1_validation_answered_with_500_witness :
    (translate (fun _ => "Ciao") (fun _ _ => "Ciao") 0
        { text := "", source_lang := "en", target_lang := "it" }).1 = 500 ∧
    (translate (fun _ => "Ciao") (fun _ _ => "Ciao") 0
        { text := "   ", source_lang := "en", target_lang := "it" }).1 = 500 :=
  ⟨C1_validation_answered_with_500 _ _ _ _ (Or.inl rfl),
   C1_validation_answered_with_500 _ _ _ _ (Or.inl rfl)⟩

/-- C2: for every text input that is empty, whitespace-only or longer
than the configured maximum (1000 characters), the translate pipeline
returns a validation failure (a 400 `HTTPException`) and the
`model.generate` call is never reached. -/
theorem C2_validation_never_reaches_backend (det : ChatMessages → String)
    (samp : ChatMessages → Nat → String) (noise : Nat) (req : TranslationRequest)
    (h : pyStrip req.text = "" ∨ req.text.length > 1000) :
    (translateBody det samp noise req).2 = false ∧
    isValidationFailure (translateBody det samp noise req).1 = true := by
  unfold translateBody
  by_cases h1 : pyStrip req.text = ""
  · rw [if_pos h1]
    exact ⟨rfl, rfl⟩
  · rcases h with h | h
    · exact absurd h h1
    · rw [if_neg h1, if_pos h]
      exact ⟨rfl, rfl⟩

/-- Witness for C2 at the empty text. -/
theorem C2_validation_never_reaches_backend_witness :
    (translateBody (fun _ => "Ciao") (fun _ _ => "Ciao") 0
        { text := "", source_lang := "en", target_lang := "it" }).2 = false ∧
    isValidationFailure (translateBody (fun _ => "Ciao") (fun _ _ => "Ciao") 0
        { text := "", source_lang := "en", target_lang := "it" }).1 = true :=
  C2_validation_never_reaches_backend _ _ _ _ (Or.inl rfl)

/-- C8: with sampling disabled (`do_sample := false` in the generate
call), two `/translate` calls with the same request and the same model
produce identical output whatever the state of the noise source, and the
transform stage is a pure function of the request fields. -/
theorem C8_translate_deterministic (det : ChatMessages → String)
    (samp : ChatMessages → Nat → String) (noiseA noiseB : Nat)
    (req : TranslationRequest) :
    translate det samp noiseA req = translate det samp noiseB req ∧
    buildMessages req =
      { system := buildSystemPrompt (get_language_name req.source_lang)
          (get_language_name req.target_lang),
        user := req.text } := by
  refine ⟨?_, rfl⟩
  unfold translate translateBody model_generate translationGenConfig
  rfl

/-- C9: every language code outside the 12-entry map resolves to English,
and a `/translate` request with an unrecognized `source_lang` is not
rejected: it is served with status 200 and the prompt built with English
substituted for the unknown source language. -/
theorem C9_unknown_language_defaults_to_english :
    (∀ code : String, code ∉ supportedLangCodes → get_language_name code = "English") ∧
    (∀ (det : ChatMessages → String) (samp : ChatMessages → Nat → String)
        (noise : Nat) (req : TranslationRequest),
      req.source_lang ∉ supportedLangCodes →
      pyStrip req.text ≠ "" →
      req.text.length ≤ 1000 →
      (translate det samp noise req).1 = 200 ∧
      buildMessages req =
        { system := buildSystemPrompt "English" (get_language_name req.target_lang),
          user := req.text }) := by
  have hmain : ∀ code : String, code ∉ supportedLangCodes →
      get_language_name code = "English" := by
    intro code h
    simp only [supportedLangCodes, List.mem_cons, List.not_mem_nil, or_false,
      not_or] at h
    obtain ⟨h1, h2, h3, h4, h5, h6, h7, h8, h9, h10, h11, h12⟩ := h
    unfold get_language_name
    rw [if_neg h1, if_neg h2, if_neg h3, if_neg h4, if_neg h5, if_neg h6,
      if_neg h7, if_neg h8, if_neg h9, if_neg h10, if_neg h11, if_neg h12]
  refine ⟨hmain, ?_⟩
  intro det samp noise req hsrc htext hlen
  constructor
  · unfold translate translateBody
    rw [if_neg htext, if_neg (by omega)]
  · unfold buildMessages
    rw [hmain req.source_lang hsrc]

/-- Witness for C9 with the unknown code xx. -/
theorem C9_unknown_language_defaults_to_english_witness :
    get_language_name "xx" = "English" ∧
    (translate (fun _ => "Ciao") (fun _ _ => "Ciao") 0
        { text := "Hello", source_lang := "xx", target_lang := "it" }).1 = 200 :=
  ⟨C9_unknown_language_defaults_to_english.1 "xx" (by decide),
   (C9_unknown_language_defaults_to_english.2 (fun _ => "Ciao") (fun _ _ => "Ciao") 0
      { text := "Hello", source_lang := "xx", target_lang := "it" }
      (by decide) (by decide) (by decide)).1⟩

/-- C3 counterexample: in `whisper_server.py` initialization is lazy and
runs inside the `/transcribe` request handler; when the loader raises,
the catch-all `except` converts the initialization failure into a
per-request 500 response (the handler returns normally, `.ok`, instead
of letting the exception propagate), and the process keeps accepting
traffic with `local_pipe` still unset. -/
theorem C3_whisper_init_failure_counterexample :
    transcribe (Except.error { msg := "CUDA out of memory" })
        (fun _ _ => Except.ok "") none { audio_data := "", language := "en" } =
      Except.ok ((500, "Transcription failed: CUDA out of memory"), none) := rfl

/-- C3 (amended): in the translation and TTS servers the module-level
initialization only logs and re-raises, so a load failure propagates
uncaught and the process never serves; in the whisper server, whose
initialization is lazy, a load failure during a `/transcribe` request is
caught and converted into a per-request 500 response. -/
theorem C3_init_failure_propagation :
    (∀ (e : PyError) (loadTokenizer : Except PyError String),
      translation_module_init (Except.error e) loadTokenizer = Except.error e) ∧
    (∀ e : PyError, tts_module_init (Except.error e) = Except.error e) ∧
    (∀ (e : PyError) (run : WhisperPipe → String → Except PyError String)
        (req : TranscriptionRequest),
      transcribe (Except.error e) run none req =
        Except.ok ((500, "Transcription failed: " ++ e.msg), none)) :=
  ⟨fun _ _ => rfl, fun _ => rfl, fun _ _ _ => rfl⟩

/-- C4 counterexample: the cleanup of the translation output (lines
196-198) has no rule for instruction or tag markup; a raw output that
echoes the Mistral instruction tags passes through post-processing
unchanged, still containing the tag. -/
theorem C4_markup_not_stripped_counterexample :
    segOccurs ("[INST]".toList)
        (cleanup_translation "[INST] Bonjour [/INST]").toList = true ∧
    cleanup_translation "[INST] Bonjour [/INST]" = "[INST] Bonjour [/INST]" := by
  constructor
  · decide
  · rfl

/-- C4 (amended): for every raw model output the cleanup strips the
parenthetical asides (no span matching the parenthetical pattern
remains: no opening parenthesis is followed by a closing one) and the
enclosing quote characters (the result neither starts nor ends with a
quote character); echoed instruction or tag markup is not stripped. -/
theorem C4_cleanup_strips_parens_and_quotes (raw : String) :
    noParenMatch (cleanup_translation raw).toList = true ∧
    headNotQuote (cleanup_translation raw).toList = true ∧
    lastNotQuote (cleanup_translation raw).toList = true := by
  have htl : (cleanup_translation raw).toList
      = stripEnds isQuoteChar (reSubParens (pyStrip raw).toList) := rfl
  rw [htl]
  refine ⟨?_, headNotQuote_stripEnds _, lastNotQuote_stripEnds _⟩
  refine noParenMatch_stripEnds ?_
  exact reSubAux_noParenMatch _ _ (le_refl _)

/-- C5: `initialize_model` is idempotent. Whenever a call succeeds, a
second call in sequence performs no loading work (its boolean is false
and the stored state is untouched) and returns the already constructed
pipeline object, whatever its own loader would do. -/
theorem C5_initialize_model_idempotent
    (load loadB : Except PyError WhisperPipe) (st stA : Option WhisperPipe)
    (p : WhisperPipe) (b : Bool)
    (h : initialize_model load st = Except.ok (p, stA, b)) :
    initialize_model loadB stA = Except.ok (p, stA, false) := by
  unfold initialize_model at h ⊢
  cases st with
  | some q =>
    injection h with h1
    injection h1 with hp h2
    injection h2 with hst hb
    subst hp
    subst hst
    rfl
  | none =>
    cases load with
    | error e => exact absurd h (by simp)
    | ok q =>
      injection h with h1
      injection h1 with hp h2
      injection h2 with hst hb
      subst hp
      subst hst
      rfl

/-- Witness for C5: after a first successful load, a second call whose
own loader would fail still returns the cached pipeline without
loading. -/
theorem C5_initialize_model_idempotent_witness :
    initialize_model (Except.error { msg := "no network" })
        (some { model_id := "openai/whisper-large-v3" }) =
      Except.ok ({ model_id := "openai/whisper-large-v3" },
        some { model_id := "openai/whisper-large-v3" }, false) :=
  C5_initialize_model_idempotent
    (Except.ok { model_id := "openai/whisper-large-v3" })
    (Except.error { msg := "no network" }) none
    (some { model_id := "openai/whisper-large-v3" })
    { model_id := "openai/whisper-large-v3" } true rfl

/-- C6: a `/tts` request with no speaker audio attached is rejected by
the required-field validation with a 4xx status (422, in the 400 class)
before the handler body runs, so the model backend is never reached. -/
theorem C6_tts_missing_reference_audio (env : TTSEnv) (text language : String) :
    400 ≤ (tts_endpoint env text language none).status ∧
    (tts_endpoint env text language none).status < 500 ∧
    (tts_endpoint env text language none).backendInvoked = false ∧
    (tts_endpoint env text language none).handlerInvoked = false := by
  refine ⟨?_, ?_, rfl, rfl⟩
  · exact (by norm_num : (400 : Nat) ≤ 422)
  · exact (by norm_num : (422 : Nat) < 500)

/-- C7: every sample of every audio buffer the `/tts` endpoint hands to
the WAV encoder has absolute value at most 1: the buffer is the
normalized model output. -/
theorem C7_tts_output_normalized (env : TTSEnv) (text language : String)
    (speaker_audio : Option (List Nat)) (wav : List ℚ) (x : ℚ)
    (hw : (tts_endpoint env text language speaker_audio).writtenWav = some wav)
    (hx : x ∈ wav) : |x| ≤ 1 := by
  cases speaker_audio with
  | none => exact absurd hw (by simp [tts_endpoint])
  | some bytes =>
    unfold tts_endpoint text_to_speech at hw
    cases hro : env.readOk with
    | false => simp [hro] at hw
    | true =>
      cases hlo : env.latentsOk with
      | false => simp [hro, hlo] at hw
      | true =>
        cases hio : env.inferenceOk with
        | false => simp [hro, hlo, hio] at hw
        | true =>
          cases hwe : env.modelWav.isEmpty with
          | true => simp [hro, hlo, hio, hwe] at hw
          | false =>
            simp only [hro, hlo, hio, hwe, Bool.not_true, Bool.not_false,
              Bool.false_eq_true, Bool.true_eq_false, if_false, if_true,
              Option.some.injEq] at hw
            subst hw
            exact abs_le_one_of_mem_normalize hx

/-- Witness for C7 on a request whose model output is already within
range. -/
theorem C7_tts_output_normalized_witness : |(1 : ℚ)| ≤ 1 :=
  C7_tts_output_normalized
    { readOk := true, latentsOk := true, inferenceOk := true, modelWav := [1, 0] }
    "Hello" "en" (some []) [1, 0] 1 (by decide) (by decide)

/-- C10: whenever the uploaded speaker audio has been written to the
temporary file, that file is deleted by the `finally` block before the
handler returns, on the success path and on every failure path alike. -/
theorem C10_temp_file_deleted (env : TTSEnv) (text language : String)
    (speaker_audio : Option (List Nat))
    (h : (tts_endpoint env text language speaker_audio).wroteTempFile = true) :
    (tts_endpoint env text language speaker_audio).tempFileRemains = false := by
  cases speaker_audio with
  | none => exact absurd h (by simp [tts_endpoint])
  | some bytes =>
    unfold tts_endpoint text_to_speech at h ⊢
    cases hro : env.readOk with
    | false => simp [hro] at h
    | true =>
      cases hlo : env.latentsOk with
      | false => simp [hro, hlo]
      | true =>
        cases hio : env.inferenceOk with
        | false => simp [hro, hlo, hio]
        | true =>
          cases hwe : env.modelWav.isEmpty with
          | true => simp [hro, hlo, hio, hwe]
          | false => simp [hro, hlo, hio, hwe]

/-- Witness for C10 on a request whose latent computation fails: the
upload was written and the temporary file is gone. -/
theorem C10_temp_file_deleted_witness :
    (tts_endpoint ⟨true, false, true, []⟩ "Hi" "en" (some [])).tempFileRemains = false :=
  C10_temp_file_deleted ⟨true, false, true, []⟩ "Hi" "en" (some []) (by decide)

end Raimu
